import Mathlib

/-
  Shallow embedding of the vitrin-frontend client code relevant to the
  auth/token-management module (services/auth.ts), the axios request/response
  interceptors (services/api.ts), the form-validation utilities
  (utils/validation.ts) and the local product-list update in the
  useProducts hook (hooks/useProducts.ts).

  Conventions of the embedding:
  - JavaScript strings are Lean String; JS `null`/`undefined` becomes Option.
  - JS truthiness on strings ("" is falsy) is made explicit wherever the
    source relies on it (the `|| null` getters, `if (token)`, `errorData.detail
    || 'Login failed'`).
  - localStorage is a record of the three keys the auth service touches.
  - External runtime primitives (JSON.parse / JSON.stringify, the browser URL
    constructor, the floating-point formatFileSize rendering) are passed in as
    parameters; no claim below depends on their behaviour.
-/

namespace Vitrin

/-- Token pair held by the AuthService (interface AuthTokens in auth.ts). -/
structure AuthTokens where
  access : String
  refresh : String
deriving DecidableEq

/-- User record (interface User in auth.ts). -/
structure User where
  id : Int
  username : String
  email : String
  first_name : String
  last_name : String
deriving DecidableEq

/-- Successful auth response body (interface AuthResponse in auth.ts). -/
structure AuthResponse where
  message : String
  user : User
  tokens : AuthTokens
deriving DecidableEq

/-- The three localStorage keys the auth service reads and writes. -/
structure Storage where
  access_token : Option String
  refresh_token : Option String
  userJson : Option String
deriving DecidableEq

/-- In-memory fields of the AuthService singleton together with localStorage. -/
structure AuthState where
  tokens : Option AuthTokens
  user : Option User
  storage : Storage
deriving DecidableEq

/-- AuthService.getAccessToken: `this.tokens?.access || null`.
    An empty access string is falsy in JS, so it collapses to null. -/
def getAccessToken (s : AuthState) : Option String :=
  match s.tokens with
  | none => none
  | some t => if t.access = "" then none else some t.access

/-- AuthService.getRefreshToken: `this.tokens?.refresh || null`. -/
def getRefreshToken (s : AuthState) : Option String :=
  match s.tokens with
  | none => none
  | some t => if t.refresh = "" then none else some t.refresh

/-- AuthService.isAuthenticated: `!!this.tokens?.access`. -/
def isAuthenticated (s : AuthState) : Bool :=
  match s.tokens with
  | none => false
  | some t => !(t.access = "")

/-- AuthService.storeTokens: writes both tokens to localStorage and caches
    them in memory. -/
def storeTokens (tk : AuthTokens) (s : AuthState) : AuthState :=
  { s with
    tokens := some tk
    storage := { s.storage with
                 access_token := some tk.access
                 refresh_token := some tk.refresh } }

/-- AuthService.setUser: caches the user and persists it via JSON.stringify,
    modelled by the `stringify` parameter. -/
def setUser (stringify : User → String) (u : User) (s : AuthState) : AuthState :=
  { s with
    user := some u
    storage := { s.storage with userJson := some (stringify u) } }

/-- AuthService.getUser: returns the cached user if present, otherwise parses
    the localStorage entry with JSON.parse (the `parse` parameter; a parse
    failure is caught and yields null). Returns the value together with the
    state after the caching side effect. -/
def getUser (parse : String → Option User) (s : AuthState) :
    Option User × AuthState :=
  match s.user with
  | some u => (some u, s)
  | none =>
    match s.storage.userJson with
    | none => (none, s)
    | some str =>
      match parse str with
      | some u => (some u, { s with user := some u })
      | none => (none, s)

/-- AuthService.logout: drops the in-memory tokens and user and removes all
    three localStorage keys. -/
def logout (_s : AuthState) : AuthState :=
  { tokens := none
    user := none
    storage := { access_token := none, refresh_token := none, userJson := none } }

/-- Outcome of the HTTP call to the token-refresh endpoint as the client sees
    it: the fetch (or body read) threw, or a response arrived with its ok flag
    and the `access` field of its JSON body. -/
inductive RefreshHttp where
  | netError : RefreshHttp
  | reply (ok : Bool) (access : String) : RefreshHttp
deriving DecidableEq

/-- AuthService.refreshAccessToken: returns false when no refresh token is
    stored, when the endpoint replies non-ok, or when the call throws; on an
    ok reply it stores the new access token alongside the existing refresh
    token and returns true. The Boolean result is paired with the updated
    state. -/
def refreshAccessToken (env : RefreshHttp) (s : AuthState) : Bool × AuthState :=
  match getRefreshToken s with
  | none => (false, s)
  | some rt =>
    match env with
    | RefreshHttp.netError => (false, s)
    | RefreshHttp.reply false _ => (false, s)
    | RefreshHttp.reply true access =>
        (true, storeTokens { access := access, refresh := rt } s)

/-- JS template-literal rendering of a possibly-null string: `null` is
    interpolated as the four characters "null". -/
def jsInterp : Option String → String
  | none => "null"
  | some s => s

/-- JS `v || dflt` on an optional string field: both a missing field and an
    empty string fall back to the default. -/
def jsOrString (v : Option String) (dflt : String) : String :=
  match v with
  | none => dflt
  | some s => if s = "" then dflt else s

/-- The one header of the request config that the interceptors touch. -/
structure Request where
  authorization : Option String
deriving DecidableEq

/-- Axios error object as the response interceptor reads it:
    `error.response?.status`, the error's own message, the optional
    human-readable detail carried in `error.response.data`, and
    `error.config` (the original request). -/
structure ApiError where
  status : Option Nat
  message : String
  bodyDetail : Option String
  config : Request
deriving DecidableEq

/-- Request interceptor of services/api.ts: attaches
    `Authorization: Bearer token` when a token is stored, and leaves the
    config untouched otherwise. -/
def addAuthHeader (s : AuthState) (req : Request) : Request :=
  match getAccessToken s with
  | some t => { req with authorization := some ("Bearer " ++ t) }
  | none => req

/-- AuthService.getAuthHeader: `token ? Authorization : empty`. -/
def getAuthHeader (s : AuthState) : Option String :=
  match getAccessToken s with
  | some t => some ("Bearer " ++ t)
  | none => none

/-- What the response interceptor returns for a failed response: it either
    rejects with an error or re-issues a request. -/
inductive Outcome where
  | reject (e : ApiError)
  | retry (req : Request)
deriving DecidableEq

/-- Result of one run of the response-error interceptor: its outcome, the
    auth state afterwards, how many times AuthService.refreshAccessToken was
    called, and any `window.location.href` assignment. -/
structure StepResult where
  outcome : Outcome
  state : AuthState
  refreshAttempts : Nat
  navigatedTo : Option String
deriving DecidableEq

/-- Response-error interceptor of services/api.ts: on a 401 it calls
    refreshAccessToken once; on success it re-issues the original request with
    `Bearer getAccessToken()` interpolated into the Authorization header, on
    failure it logs out, navigates to /login and rejects with the original
    error. Any non-401 failure is rejected unchanged. -/
def handleResponseError (env : RefreshHttp) (s : AuthState) (e : ApiError) :
    StepResult :=
  if e.status = some 401 then
    let res := refreshAccessToken env s
    if res.1 then
      { outcome := Outcome.retry
          { e.config with
            authorization := some ("Bearer " ++ jsInterp (getAccessToken res.2)) }
        state := res.2
        refreshAttempts := 1
        navigatedTo := none }
    else
      { outcome := Outcome.reject e
        state := logout res.2
        refreshAttempts := 1
        navigatedTo := some ("/login") }
  else
    { outcome := Outcome.reject e
      state := s
      refreshAttempts := 0
      navigatedTo := none }

/-- One response of the remote server to one send of a request: either a
    success (2xx, delivered through the interceptor's success branch) or a
    failure carrying `error.response?.status`, the error message the HTTP
    client produced, and the optional detail in the response body. -/
inductive HttpResponse where
  | success : HttpResponse
  | failure (status : Option Nat) (message : String)
      (bodyDetail : Option String) : HttpResponse
deriving DecidableEq

/-- Overall result of driving one original request through the axios
    instance, counting every send of the request and every call to
    refreshAccessToken it causes. -/
structure RunResult where
  state : AuthState
  refreshAttempts : Nat
  sends : Nat
  succeeded : Bool
  navigatedTo : Option String
deriving DecidableEq

/-- Execution loop for one original request against the axios instance:
    each send first passes the request interceptor, then the server answers
    (`server n` for the n-th send); a failed response goes through the
    response-error interceptor, whose retry outcome feeds the request back
    into the same instance. `fuel` bounds the number of sends; none means the
    bound was hit before the request settled. -/
def runRequestGo (server : Nat → HttpResponse) (refreshEnv : Nat → RefreshHttp) :
    Nat → AuthState → Request → Nat → Nat → Option RunResult
  | 0, _, _, _, _ => none
  | Nat.succ fuel, s, req, sends, refreshes =>
    let sent := addAuthHeader s req
    match server sends with
    | HttpResponse.success =>
        some { state := s, refreshAttempts := refreshes, sends := sends + 1
               succeeded := true, navigatedTo := none }
    | HttpResponse.failure st msg detail =>
        let r := handleResponseError (refreshEnv refreshes) s
          { status := st, message := msg, bodyDetail := detail, config := sent }
        match r.outcome with
        | Outcome.retry req2 =>
            runRequestGo server refreshEnv fuel r.state req2 (sends + 1)
              (refreshes + r.refreshAttempts)
        | Outcome.reject _ =>
            some { state := r.state
                   refreshAttempts := refreshes + r.refreshAttempts
                   sends := sends + 1
                   succeeded := false
                   navigatedTo := r.navigatedTo }

/-- Drive one original request to completion (see runRequestGo). -/
def runRequest (fuel : Nat) (server : Nat → HttpResponse)
    (refreshEnv : Nat → RefreshHttp) (s : AuthState) (req : Request) :
    Option RunResult :=
  runRequestGo server refreshEnv fuel s req 0 0

/-- A response received by one of the fetch-based auth operations of
    auth.ts: its ok flag and its JSON body, read as the error fields
    (`detail`, `error`) when not ok and as an AuthResponse when ok. -/
structure AuthHttpReply where
  ok : Bool
  errDetail : Option String
  errField : Option String
  auth : AuthResponse
deriving DecidableEq

/-- AuthService.login: on a non-ok response throws
    `errorData.detail || 'Login failed'`; on ok stores the tokens and user. -/
def login (stringify : User → String) (r : AuthHttpReply) (s : AuthState) :
    Except String AuthResponse × AuthState :=
  if r.ok then
    (Except.ok r.auth, setUser stringify r.auth.user (storeTokens r.auth.tokens s))
  else
    (Except.error (jsOrString r.errDetail ("Login failed")), s)

/-- AuthService.register: on a non-ok response throws
    `errorData.detail || 'Registration failed'`. -/
def register (stringify : User → String) (r : AuthHttpReply) (s : AuthState) :
    Except String AuthResponse × AuthState :=
  if r.ok then
    (Except.ok r.auth, setUser stringify r.auth.user (storeTokens r.auth.tokens s))
  else
    (Except.error (jsOrString r.errDetail ("Registration failed")), s)

/-- AuthService.googleLogin: on a non-ok response throws
    `errorData.error || 'Google login failed'`. -/
def googleLogin (stringify : User → String) (r : AuthHttpReply) (s : AuthState) :
    Except String AuthResponse × AuthState :=
  if r.ok then
    (Except.ok r.auth, setUser stringify r.auth.user (storeTokens r.auth.tokens s))
  else
    (Except.error (jsOrString r.errField ("Google login failed")), s)

/-- Result shape of every validator in utils/validation.ts. -/
structure ValidationResult where
  isValid : Bool
  errors : List String
deriving DecidableEq

/-- ASCII fragment of the JS regex character class for whitespace, as used by
    the validators (space, tab, newline, carriage return, vertical tab,
    form feed). -/
def isJsWhitespace (c : Char) : Bool :=
  c = ' ' || c = '\t' || c = '\n' || c = '\r' || c = '\x0b' || c = '\x0c'

/-- JS String.prototype.trim over the character list. -/
def jsTrim (cs : List Char) : List Char :=
  ((cs.dropWhile isJsWhitespace).reverse.dropWhile isJsWhitespace).reverse

/-- Test of the email regex of validateEmail: a string matches
    `^[^\s@]+@[^\s@]+\.[^\s@]+$` exactly when it splits at a unique @ into a
    nonempty whitespace-free local part and a whitespace-free domain with a
    dot somewhere strictly inside it. -/
def emailTest (s : String) : Bool :=
  match s.splitOn ("@") with
  | [localPart, domain] =>
      decide (0 < localPart.length) &&
      localPart.data.all (fun c => !isJsWhitespace c) &&
      domain.data.all (fun c => !isJsWhitespace c) &&
      (domain.data.drop 1).dropLast.contains '.'
  | _ => false

/-- validateEmail of utils/validation.ts. -/
def validateEmail (email : String) : ValidationResult :=
  let isValid := emailTest email
  { isValid := isValid
    errors := if isValid then [] else ["Please enter a valid email address"] }

/-- validatePassword of utils/validation.ts: length at least 8, an uppercase
    letter, a lowercase letter and a digit, with one message pushed per
    failed check. -/
def validatePassword (password : String) : ValidationResult :=
  let errors :=
    (if password.length < 8 then
      ["Password must be at least 8 characters long"] else []) ++
    (if !(password.data.any (fun c => 'A' ≤ c && c ≤ 'Z')) then
      ["Password must contain at least one uppercase letter"] else []) ++
    (if !(password.data.any (fun c => 'a' ≤ c && c ≤ 'z')) then
      ["Password must contain at least one lowercase letter"] else []) ++
    (if !(password.data.any (fun c => '0' ≤ c && c ≤ '9')) then
      ["Password must contain at least one number"] else [])
  { isValid := errors.length = 0, errors := errors }

/-- Character class of the username regex `^[a-zA-Z0-9_]+$`. -/
def isUsernameChar (c : Char) : Bool :=
  ('a' ≤ c && c ≤ 'z') || ('A' ≤ c && c ≤ 'Z') || ('0' ≤ c && c ≤ '9') || c = '_'

/-- validateUsername of utils/validation.ts. -/
def validateUsername (username : String) : ValidationResult :=
  let errors :=
    (if username.length < 3 then
      ["Username must be at least 3 characters long"] else []) ++
    (if 30 < username.length then
      ["Username must be less than 30 characters"] else []) ++
    (if !(!username.data.isEmpty && username.data.all isUsernameChar) then
      ["Username can only contain letters, numbers, and underscores"] else [])
  { isValid := errors.length = 0, errors := errors }

/-- validateProductTitle of utils/validation.ts. -/
def validateProductTitle (title : String) : ValidationResult :=
  let errors :=
    (if (jsTrim title.data).isEmpty then
      ["Product title is required"] else []) ++
    (if title.length < 3 then
      ["Product title must be at least 3 characters long"] else []) ++
    (if 200 < title.length then
      ["Product title must be less than 200 characters"] else [])
  { isValid := errors.length = 0, errors := errors }

/-- validateProductDescription of utils/validation.ts. -/
def validateProductDescription (description : String) : ValidationResult :=
  let errors :=
    (if (jsTrim description.data).isEmpty then
      ["Product description is required"] else []) ++
    (if description.length < 50 then
      ["Product description must be at least 50 characters long"] else []) ++
    (if 2000 < description.length then
      ["Product description must be less than 2000 characters"] else [])
  { isValid := errors.length = 0, errors := errors }

/-- validateUrl of utils/validation.ts: the browser URL constructor either
    succeeds or throws; its verdict is the `urlParseOk` parameter. -/
def validateUrl (urlParseOk : Bool) : ValidationResult :=
  if urlParseOk then { isValid := true, errors := [] }
  else { isValid := false, errors := ["Please enter a valid URL"] }

/-- File data examined by validateFile: size in bytes and MIME type. -/
structure FileInfo where
  size : Int
  type : String
deriving DecidableEq

/-- Options object of validateFile, with its defaulted fields. -/
structure FileOptions where
  maxSize : Option Int
  allowedTypes : Option (List String)
deriving DecidableEq

/-- validateFile of utils/validation.ts. The floating-point message renderer
    formatFileSize is the `fmt` parameter. -/
def validateFile (fmt : Int → String) (file : FileInfo)
    (options : FileOptions) : ValidationResult :=
  let maxSize := options.maxSize.getD (10 * 1024 * 1024)
  let allowedTypes := options.allowedTypes.getD
    ["image/jpeg", "image/png", "image/gif", "image/webp"]
  let errors :=
    (if maxSize < file.size then
      ["File size must be less than " ++ fmt maxSize] else []) ++
    (if !(allowedTypes.contains file.type) then
      ["File type " ++ file.type ++ " is not supported"] else [])
  { isValid := errors.length = 0, errors := errors }

/-- validateForm of utils/validation.ts: walks Object.entries of the data,
    applies the rule registered for each field when one exists, and collects
    the errors of every invalid result. -/
def validateForm {α : Type} (data : List (String × α))
    (rules : String → Option (α → ValidationResult)) : ValidationResult :=
  let errors := data.foldl
    (fun acc fv =>
      match rules fv.1 with
      | some rule =>
          let r := rule fv.2
          if r.isValid then acc else acc ++ r.errors
      | none => acc) []
  { isValid := errors.length = 0, errors := errors }

/-- validateSearchQuery of utils/validation.ts. -/
def validateSearchQuery (query : String) : ValidationResult :=
  let errors :=
    (if (jsTrim query.data).isEmpty then
      ["Search query is required"] else []) ++
    (if query.length < 2 then
      ["Search query must be at least 2 characters long"] else []) ++
    (if 100 < query.length then
      ["Search query must be less than 100 characters"] else [])
  { isValid := errors.length = 0, errors := errors }

/-- Category field of a Product in hooks/useProducts.ts: either an object
    with a name or a bare string. -/
inductive CategoryVal where
  | named (name : String)
  | plain (s : String)
deriving DecidableEq

/-- Author field of a Product. -/
structure Author where
  username : String
  first_name : Option String
  last_name : Option String
deriving DecidableEq

/-- Tag object of a Product. -/
structure Tag where
  name : String
deriving DecidableEq

/-- Product record of hooks/useProducts.ts; the comment entries are `any` in
    the source, modelled by the type parameter. -/
structure Product (α : Type) where
  id : Int
  title : String
  short_description : String
  description : Option String
  category : CategoryVal
  author : Author
  image : Option String
  website_url : Option String
  demo_url : Option String
  upvote_count : Int
  view_count : Int
  comment_count : Int
  is_upvoted : Bool
  created_at : String
  tags : Option (List Tag)
  comments : Option (List α)
deriving DecidableEq

/-- The per-product update applied by upvoteProduct to the matching product:
    toggle is_upvoted and move upvote_count down by one when it was upvoted,
    up by one when it was not. -/
def upvoteUpdate {α : Type} (p : Product α) : Product α :=
  { p with
    is_upvoted := !p.is_upvoted
    upvote_count := if p.is_upvoted then p.upvote_count - 1
                    else p.upvote_count + 1 }

/-- Local state update of useProducts.upvoteProduct after the POST succeeds:
    map over the previous list, rewriting the product whose id matches. -/
def upvoteProduct {α : Type} (productId : Int) (ps : List (Product α)) :
    List (Product α) :=
  ps.map (fun p => if p.id = productId then upvoteUpdate p else p)

/-
  Concrete fixtures used by counterexamples and witnesses.
-/

/-- A signed-in auth state: access token "a", refresh token "r", storage in
    sync, no cached user. -/
def baseState : AuthState :=
  { tokens := some { access := "a", refresh := "r" }
    user := none
    storage := { access_token := some ("a"), refresh_token := some ("r")
                 userJson := none } }

/-- A request with no headers set yet. -/
def baseReq : Request := { authorization := none }

/-- A 401 error for the base request. -/
def e401 : ApiError :=
  { status := some 401
    message := "Request failed with status code 401"
    bodyDetail := none
    config := baseReq }

/-- A 500 error whose response body carries a human-readable detail while the
    HTTP client's own error message is the generic one. -/
def e500 : ApiError :=
  { status := some 500
    message := "Request failed with status code 500"
    bodyDetail := some ("Invalid data")
    config := baseReq }

/-- A server that answers the first two sends of the request with 401 and the
    third with success. -/
def serverC1 : Nat → HttpResponse := fun n =>
  if n < 2 then
    HttpResponse.failure (some 401) ("Request failed with status code 401") none
  else HttpResponse.success

/-- A refresh endpoint that succeeds every time, issuing tokens t1, t2, ... -/
def refreshEnvC1 : Nat → RefreshHttp := fun n =>
  RefreshHttp.reply true (if n = 0 then "t1" else "t2")

/-- A fixed user record. -/
def dummyUser : User :=
  { id := 1, username := "u", email := "e@x.co", first_name := "f", last_name := "l" }

/-- A fixed successful auth response body. -/
def dummyAuth : AuthResponse :=
  { message := "ok", user := dummyUser, tokens := { access := "a2", refresh := "r2" } }

/-- A non-ok auth response whose body carries both a detail and an error
    field. -/
def rBad : AuthHttpReply :=
  { ok := false
    errDetail := some ("Invalid credentials")
    errField := some ("Invalid Google token")
    auth := dummyAuth }

/-- A fixed author record. -/
def demoAuthor : Author := { username := "u", first_name := none, last_name := none }

/-- A product that is not yet upvoted. -/
def demoProduct1 : Product Unit :=
  { id := 1, title := "t1", short_description := "s", description := none
    category := CategoryVal.plain ("c"), author := demoAuthor
    image := none, website_url := none, demo_url := none
    upvote_count := 5, view_count := 7, comment_count := 2
    is_upvoted := false, created_at := "d", tags := none, comments := none }

/-- A second product, already upvoted. -/
def demoProduct2 : Product Unit :=
  { demoProduct1 with id := 2, is_upvoted := true, upvote_count := 3 }

/-- A two-product list. -/
def demoProducts : List (Product Unit) := [demoProduct1, demoProduct2]

/-
  Helper lemmas.
-/

/-- The refresh-token getter never returns the empty string (JS `|| null`). -/
lemma getRefreshToken_ne_empty {s : AuthState} {rt : String}
    (h : getRefreshToken s = some rt) : ¬ rt = "" := by
  intro hrt
  subst hrt
  unfold getRefreshToken at h
  rcases hs : s.tokens with _ | t <;> rw [hs] at h
  · exact absurd h (by simp)
  · by_cases he : t.refresh = ""
    · simp [he] at h
    · simp [he] at h

/-- refreshAccessToken leaves the state alone and reports false in each of
    its three failure modes. -/
lemma refreshAccessToken_fails {env : RefreshHttp} {s : AuthState}
    (h : getRefreshToken s = none ∨ env = RefreshHttp.netError ∨
         ∃ b, env = RefreshHttp.reply false b) :
    refreshAccessToken env s = (false, s) := by
  unfold refreshAccessToken
  rcases h with h | h | ⟨b, h⟩
  · rw [h]
  · subst h
    rcases hs : getRefreshToken s with _ | rt <;> rfl
  · subst h
    rcases hs : getRefreshToken s with _ | rt <;> rfl

/-- A record with isValid defined as emptiness of its own error list
    satisfies the isValid-iff-no-errors invariant. -/
lemma mkValidation_inv (errors : List String) :
    (({ isValid := errors.length = 0, errors := errors } :
        ValidationResult).isValid = true ↔
     ({ isValid := errors.length = 0, errors := errors } :
        ValidationResult).errors = []) := by
  simp [List.length_eq_zero]

/-
  Claim theorems.
-/

/-- C3: a successful token refresh replaces only the stored access token with
    the newly issued one; the refresh token the service holds afterwards is
    the one it held before (and localStorage is rewritten with that same
    refresh token); the cached user and its localStorage entry are
    untouched. -/
theorem refresh_preserves_refresh_token (s : AuthState) (a rt : String)
    (hrt : getRefreshToken s = some rt) :
    (refreshAccessToken (RefreshHttp.reply true a) s).1 = true ∧
    (refreshAccessToken (RefreshHttp.reply true a) s).2.tokens =
      some { access := a, refresh := rt } ∧
    getRefreshToken (refreshAccessToken (RefreshHttp.reply true a) s).2 =
      getRefreshToken s ∧
    (refreshAccessToken (RefreshHttp.reply true a) s).2.storage.access_token =
      some a ∧
    (refreshAccessToken (RefreshHttp.reply true a) s).2.storage.refresh_token =
      some rt ∧
    (refreshAccessToken (RefreshHttp.reply true a) s).2.user = s.user ∧
    (refreshAccessToken (RefreshHttp.reply true a) s).2.storage.userJson =
      s.storage.userJson := by
  have hne : ¬ rt = "" := getRefreshToken_ne_empty hrt
  unfold refreshAccessToken
  rw [hrt]
  refine ⟨rfl, rfl, ?_, rfl, rfl, rfl, rfl⟩
  simp [getRefreshToken, storeTokens, hne]

/-- Witness for C3 at the base state: refreshing with new access token n
    succeeds, stores access n, and keeps refresh token r. -/
theorem refresh_preserves_refresh_token_witness :
    (refreshAccessToken (RefreshHttp.reply true ("n")) baseState).1 = true ∧
    (refreshAccessToken (RefreshHttp.reply true ("n")) baseState).2.tokens =
      some { access := "n", refresh := "r" } ∧
    getRefreshToken (refreshAccessToken (RefreshHttp.reply true ("n")) baseState).2 =
      getRefreshToken baseState ∧
    (refreshAccessToken (RefreshHttp.reply true ("n")) baseState).2.storage.access_token =
      some ("n") ∧
    (refreshAccessToken (RefreshHttp.reply true ("n")) baseState).2.storage.refresh_token =
      some ("r") ∧
    (refreshAccessToken (RefreshHttp.reply true ("n")) baseState).2.user =
      baseState.user ∧
    (refreshAccessToken (RefreshHttp.reply true ("n")) baseState).2.storage.userJson =
      baseState.storage.userJson :=
  refresh_preserves_refresh_token baseState "n" "r" (by decide)

/-- C5: any failed response whose status is not 401 is never retried: the
    interceptor rejects with the original error, calls no refresh, changes no
    state and performs no navigation. -/
theorem non401_rejects_original (env : RefreshHttp) (s : AuthState)
    (e : ApiError) (h : ¬ e.status = some 401) :
    handleResponseError env s e =
      { outcome := Outcome.reject e, state := s, refreshAttempts := 0
        navigatedTo := none } := by
  unfold handleResponseError
  rw [if_neg h]

/-- Witness for C5: a 500 error at the base state is rejected unchanged. -/
theorem non401_rejects_original_witness :
    handleResponseError RefreshHttp.netError baseState e500 =
      { outcome := Outcome.reject e500, state := baseState, refreshAttempts := 0
        navigatedTo := none } :=
  non401_rejects_original RefreshHttp.netError baseState e500 (by decide)

/-- C6: refresh is reactive only: the interceptor makes a refresh attempt
    exactly when the failed response's status is 401, and no refresh happens
    anywhere else in the request pipeline. -/
theorem refresh_only_on_401 (env : RefreshHttp) (s : AuthState) (e : ApiError) :
    (handleResponseError env s e).refreshAttempts =
      if e.status = some 401 then 1 else 0 := by
  unfold handleResponseError
  by_cases h : e.status = some 401
  · rw [if_pos h, if_pos h]
    by_cases hb : (refreshAccessToken env s).1 = true <;> simp [hb]
  · rw [if_neg h, if_neg h]

/-- C7: the request interceptor attaches Authorization: Bearer token exactly
    when an access token is stored, and getAuthHeader agrees; with no stored
    token the request config is left untouched. -/
theorem auth_header_attachment (s : AuthState) (req : Request) :
    (getAccessToken s = none →
      addAuthHeader s req = req ∧ getAuthHeader s = none) ∧
    (∀ t, getAccessToken s = some t →
      (addAuthHeader s req).authorization = some ("Bearer " ++ t) ∧
      getAuthHeader s = some ("Bearer " ++ t)) := by
  constructor
  · intro h
    unfold addAuthHeader getAuthHeader
    rw [h]
    exact ⟨rfl, rfl⟩
  · intro t h
    unfold addAuthHeader getAuthHeader
    rw [h]
    exact ⟨rfl, rfl⟩

/-- Witness for C7: at the base state the header is Bearer a; after logout no
    header is attached. -/
theorem auth_header_attachment_witness :
    ((addAuthHeader baseState baseReq).authorization = some ("Bearer a") ∧
      getAuthHeader baseState = some ("Bearer a")) ∧
    (addAuthHeader (logout baseState) baseReq = baseReq ∧
      getAuthHeader (logout baseState) = none) :=
  ⟨(auth_header_attachment baseState baseReq).2 "a" (by decide),
   (auth_header_attachment (logout baseState) baseReq).1 (by decide)⟩

/-- C9: logout is idempotent: from any state it yields a state with no access
    token, no refresh token, no authentication, and no user (in memory or in
    localStorage, for any JSON.parse behaviour), and applying logout again
    changes nothing. -/
theorem logout_idempotent (parse : String → Option User) (s : AuthState) :
    getAccessToken (logout s) = none ∧
    getRefreshToken (logout s) = none ∧
    isAuthenticated (logout s) = false ∧
    getUser parse (logout s) = (none, logout s) ∧
    logout (logout s) = logout s :=
  ⟨rfl, rfl, rfl, rfl, rfl⟩

/-- C1 counterexample: the interceptor has no per-request retry guard, so one
    original request whose retry again receives 401 causes a second refresh
    attempt: against a server that answers the first two sends with 401 while
    the refresh endpoint keeps succeeding, the single original request ends
    with two refresh attempts, not at most one. -/
theorem refresh_per_request_counterexample :
    (runRequest 10 serverC1 refreshEnvC1 baseState baseReq).map
      RunResult.refreshAttempts = some 2 := by decide

/-- C1 as amended: the one-refresh and one-retry bound holds per 401 response
    received, not per original request: on a 401, with a refresh token stored
    and the refresh endpoint succeeding with a non-empty access token a, the
    interceptor makes exactly one refresh attempt and re-issues the original
    request exactly once, with Authorization: Bearer a, without navigating
    away; the re-issued request goes through the same interceptor again. -/
theorem refresh401_single_attempt (env : RefreshHttp) (s : AuthState)
    (e : ApiError) (a rt : String)
    (h401 : e.status = some 401)
    (hrt : getRefreshToken s = some rt)
    (henv : env = RefreshHttp.reply true a)
    (ha : ¬ a = "") :
    (handleResponseError env s e).refreshAttempts = 1 ∧
    (handleResponseError env s e).outcome =
      Outcome.retry { authorization := some ("Bearer " ++ a) } ∧
    getAccessToken (handleResponseError env s e).state = some a ∧
    getRefreshToken (handleResponseError env s e).state = some rt ∧
    (handleResponseError env s e).navigatedTo = none := by
  subst henv
  have hne : ¬ rt = "" := getRefreshToken_ne_empty hrt
  unfold handleResponseError refreshAccessToken
  rw [hrt, if_pos h401]
  simp [getAccessToken, getRefreshToken, storeTokens, jsInterp, ha, hne]

/-- Witness for the amended C1 at the base state. -/
theorem refresh401_single_attempt_witness :
    (handleResponseError (RefreshHttp.reply true ("t1")) baseState e401).refreshAttempts = 1 ∧
    (handleResponseError (RefreshHttp.reply true ("t1")) baseState e401).outcome =
      Outcome.retry { authorization := some ("Bearer " ++ "t1") } ∧
    getAccessToken (handleResponseError (RefreshHttp.reply true ("t1")) baseState e401).state =
      some ("t1") ∧
    getRefreshToken (handleResponseError (RefreshHttp.reply true ("t1")) baseState e401).state =
      some ("r") ∧
    (handleResponseError (RefreshHttp.reply true ("t1")) baseState e401).navigatedTo =
      none :=
  refresh401_single_attempt (RefreshHttp.reply true ("t1")) baseState e401
    "t1" "r" rfl (by decide) rfl (by decide)

/-- C2: whenever the refresh attempt after a 401 fails — no refresh token
    stored, a non-ok reply from the refresh endpoint, or the refresh call
    throwing — the interceptor clears every credential (in-memory tokens and
    user, and all three localStorage keys) and navigates to /login, rejecting
    the original error. -/
theorem refresh_failure_clears_and_redirects (env : RefreshHttp)
    (s : AuthState) (e : ApiError)
    (h401 : e.status = some 401)
    (hfail : getRefreshToken s = none ∨ env = RefreshHttp.netError ∨
             ∃ b, env = RefreshHttp.reply false b) :
    (handleResponseError env s e).state.tokens = none ∧
    (handleResponseError env s e).state.user = none ∧
    (handleResponseError env s e).state.storage.access_token = none ∧
    (handleResponseError env s e).state.storage.refresh_token = none ∧
    (handleResponseError env s e).state.storage.userJson = none ∧
    getAccessToken (handleResponseError env s e).state = none ∧
    getRefreshToken (handleResponseError env s e).state = none ∧
    isAuthenticated (handleResponseError env s e).state = false ∧
    (handleResponseError env s e).navigatedTo = some ("/login") ∧
    (handleResponseError env s e).outcome = Outcome.reject e := by
  have hf : refreshAccessToken env s = (false, s) := refreshAccessToken_fails hfail
  unfold handleResponseError
  rw [if_pos h401, hf]
  exact ⟨rfl, rfl, rfl, rfl, rfl, rfl, rfl, rfl, rfl, rfl⟩

/-- Witness for C2 at the base state with a throwing refresh call. -/
theorem refresh_failure_clears_and_redirects_witness :
    (handleResponseError RefreshHttp.netError baseState e401).state.tokens = none ∧
    (handleResponseError RefreshHttp.netError baseState e401).state.user = none ∧
    (handleResponseError RefreshHttp.netError baseState e401).state.storage.access_token = none ∧
    (handleResponseError RefreshHttp.netError baseState e401).state.storage.refresh_token = none ∧
    (handleResponseError RefreshHttp.netError baseState e401).state.storage.userJson = none ∧
    getAccessToken (handleResponseError RefreshHttp.netError baseState e401).state = none ∧
    getRefreshToken (handleResponseError RefreshHttp.netError baseState e401).state = none ∧
    isAuthenticated (handleResponseError RefreshHttp.netError baseState e401).state = false ∧
    (handleResponseError RefreshHttp.netError baseState e401).navigatedTo = some ("/login") ∧
    (handleResponseError RefreshHttp.netError baseState e401).outcome = Outcome.reject e401 :=
  refresh_failure_clears_and_redirects RefreshHttp.netError baseState e401
    rfl (Or.inr (Or.inl rfl))

/-- C4 counterexample: an apiService failure is not surfaced with a message
    extracted from the response body: a 500 error whose body carries the
    detail "Invalid data" is rejected by the interceptor completely unchanged,
    so the exception reaching the caller still carries the HTTP client's own
    generic message, not the body's detail. -/
theorem apiService_error_passthrough_counterexample :
    (handleResponseError RefreshHttp.netError baseState e500).outcome =
      Outcome.reject e500 ∧
    e500.bodyDetail = some ("Invalid data") ∧
    ¬ e500.message = "Invalid data" := by decide

/-- C4 as amended: the fetch-based auth operations surface a non-ok response
    as a thrown exception whose message is extracted from the response body
    (detail for login and register, error for googleLogin), falling back to a
    default message when the body carries none (or an empty one); apiService
    requests instead reject with the underlying HTTP-client error unchanged,
    with no message extracted from the response body. -/
theorem error_messages_amended :
    (∀ (stringify : User → String) (r : AuthHttpReply) (s : AuthState),
      r.ok = false →
      login stringify r s =
        (Except.error (jsOrString r.errDetail ("Login failed")), s)) ∧
    (∀ (stringify : User → String) (r : AuthHttpReply) (s : AuthState),
      r.ok = false →
      register stringify r s =
        (Except.error (jsOrString r.errDetail ("Registration failed")), s)) ∧
    (∀ (stringify : User → String) (r : AuthHttpReply) (s : AuthState),
      r.ok = false →
      googleLogin stringify r s =
        (Except.error (jsOrString r.errField ("Google login failed")), s)) ∧
    (∀ (env : RefreshHttp) (s : AuthState) (e : ApiError),
      ¬ e.status = some 401 →
      (handleResponseError env s e).outcome = Outcome.reject e) := by
  refine ⟨?_, ?_, ?_, ?_⟩
  · intro stringify r s h
    unfold login
    rw [h]
    rfl
  · intro stringify r s h
    unfold register
    rw [h]
    rfl
  · intro stringify r s h
    unfold googleLogin
    rw [h]
    rfl
  · intro env s e h
    unfold handleResponseError
    rw [if_neg h]

/-- Witness for the amended C4: a non-ok reply with detail "Invalid
    credentials" makes login and register throw that detail, googleLogin
    throws its error field, and a non-401 apiService failure is rejected
    unchanged. -/
theorem error_messages_amended_witness :
    login (fun _ => "") rBad baseState =
      (Except.error ("Invalid credentials"), baseState) ∧
    register (fun _ => "") rBad baseState =
      (Except.error ("Invalid credentials"), baseState) ∧
    googleLogin (fun _ => "") rBad baseState =
      (Except.error ("Invalid Google token"), baseState) ∧
    (handleResponseError RefreshHttp.netError baseState e500).outcome =
      Outcome.reject e500 :=
  ⟨error_messages_amended.1 (fun _ => "") rBad baseState rfl,
   error_messages_amended.2.1 (fun _ => "") rBad baseState rfl,
   error_messages_amended.2.2.1 (fun _ => "") rBad baseState rfl,
   error_messages_amended.2.2.2 RefreshHttp.netError baseState e500 (by decide)⟩

/-- C8: every validator of utils/validation.ts returns a ValidationResult
    whose isValid flag is true exactly when its errors list is empty. -/
theorem validation_isValid_iff_no_errors :
    (∀ s, (validateEmail s).isValid = true ↔ (validateEmail s).errors = []) ∧
    (∀ s, (validatePassword s).isValid = true ↔ (validatePassword s).errors = []) ∧
    (∀ s, (validateUsername s).isValid = true ↔ (validateUsername s).errors = []) ∧
    (∀ s, (validateProductTitle s).isValid = true ↔
      (validateProductTitle s).errors = []) ∧
    (∀ s, (validateProductDescription s).isValid = true ↔
      (validateProductDescription s).errors = []) ∧
    (∀ b, (validateUrl b).isValid = true ↔ (validateUrl b).errors = []) ∧
    (∀ (fmt : Int → String) (f : FileInfo) (o : FileOptions),
      (validateFile fmt f o).isValid = true ↔ (validateFile fmt f o).errors = []) ∧
    (∀ (α : Type) (data : List (String × α))
      (rules : String → Option (α → ValidationResult)),
      (validateForm data rules).isValid = true ↔
      (validateForm data rules).errors = []) ∧
    (∀ s, (validateSearchQuery s).isValid = true ↔
      (validateSearchQuery s).errors = []) := by
  refine ⟨?_, ?_, ?_, ?_, ?_, ?_, ?_, ?_, ?_⟩
  · intro s
    unfold validateEmail
    cases h : emailTest s <;> simp [h]
  · intro s
    exact mkValidation_inv _
  · intro s
    exact mkValidation_inv _
  · intro s
    exact mkValidation_inv _
  · intro s
    exact mkValidation_inv _
  · intro b
    cases b <;> simp [validateUrl]
  · intro fmt f o
    exact mkValidation_inv _
  · intro α data rules
    exact mkValidation_inv _
  · intro s
    exact mkValidation_inv _

/-- C10: a successful upvoteProduct rewrites only the products whose id
    matches — toggling is_upvoted and moving upvote_count by minus one when
    upvoted and plus one when not, all other fields intact — keeps the list
    length, leaves every non-matching entry untouched, and leaves the whole
    list unchanged when no id matches. -/
theorem upvoteProduct_frame (α : Type) (pid : Int) (ps : List (Product α)) :
    (upvoteProduct pid ps).length = ps.length ∧
    (∀ i p, ps.get? i = some p → ¬ p.id = pid →
      (upvoteProduct pid ps).get? i = some p) ∧
    (∀ i p, ps.get? i = some p → p.id = pid →
      ∃ q, (upvoteProduct pid ps).get? i = some q ∧
        q.is_upvoted = !p.is_upvoted ∧
        q.upvote_count =
          (if p.is_upvoted then p.upvote_count - 1 else p.upvote_count + 1) ∧
        q.id = p.id ∧ q.title = p.title ∧
        q.short_description = p.short_description ∧
        q.description = p.description ∧ q.category = p.category ∧
        q.author = p.author ∧ q.image = p.image ∧
        q.website_url = p.website_url ∧ q.demo_url = p.demo_url ∧
        q.view_count = p.view_count ∧ q.comment_count = p.comment_count ∧
        q.created_at = p.created_at ∧ q.tags = p.tags ∧
        q.comments = p.comments) ∧
    ((∀ p ∈ ps, ¬ p.id = pid) → upvoteProduct pid ps = ps) := by
  refine ⟨List.length_map _ _, ?_, ?_, ?_⟩
  · intro i p hp hne
    unfold upvoteProduct
    rw [List.get?_map, hp]
    simp [hne]
  · intro i p hp heq
    refine ⟨upvoteUpdate p, ?_, rfl, rfl, rfl, rfl, rfl, rfl, rfl, rfl, rfl,
      rfl, rfl, rfl, rfl, rfl, rfl, rfl⟩
    unfold upvoteProduct
    rw [List.get?_map, hp]
    simp [heq]
  · intro hall
    unfold upvoteProduct
    induction ps with
    | nil => rfl
    | cons p t ih =>
        have hp : ¬ p.id = pid := hall p (List.mem_cons_self p t)
        have ht : ∀ q ∈ t, ¬ q.id = pid :=
          fun q hq => hall q (List.mem_cons_of_mem p hq)
        simp only [List.map_cons, if_neg hp]
        rw [ih ht]

/-- Witness for C10 on a concrete two-product list: upvoting id 1 keeps the
    length, leaves the id-2 product untouched, toggles the id-1 product as
    specified, and upvoting an absent id changes nothing. -/
theorem upvoteProduct_frame_witness :
    (upvoteProduct 1 demoProducts).length = demoProducts.length ∧
    (upvoteProduct 1 demoProducts).get? 1 = some demoProduct2 ∧
    (∃ q, (upvoteProduct 1 demoProducts).get? 0 = some q ∧
      q.is_upvoted = !demoProduct1.is_upvoted ∧
      q.upvote_count = (if demoProduct1.is_upvoted then
        demoProduct1.upvote_count - 1 else demoProduct1.upvote_count + 1) ∧
      q.id = demoProduct1.id ∧ q.title = demoProduct1.title ∧
      q.short_description = demoProduct1.short_description ∧
      q.description = demoProduct1.description ∧
      q.category = demoProduct1.category ∧
      q.author = demoProduct1.author ∧ q.image = demoProduct1.image ∧
      q.website_url = demoProduct1.website_url ∧
      q.demo_url = demoProduct1.demo_url ∧
      q.view_count = demoProduct1.view_count ∧
      q.comment_count = demoProduct1.comment_count ∧
      q.created_at = demoProduct1.created_at ∧
      q.tags = demoProduct1.tags ∧
      q.comments = demoProduct1.comments) ∧
    upvoteProduct 99 demoProducts = demoProducts :=
  ⟨(upvoteProduct_frame Unit 1 demoProducts).1,
   (upvoteProduct_frame Unit 1 demoProducts).2.1 1 demoProduct2 rfl (by decide),
   (upvoteProduct_frame Unit 1 demoProducts).2.2.1 0 demoProduct1 rfl rfl,
   (upvoteProduct_frame Unit 99 demoProducts).2.2.2 (by decide)⟩

end Vitrin
